import Mathlib

/-!
Verification development for the psi file-sharing core: the multi-source
download orchestrator (`FileShareDownloader` and its transport adapters) and
the content-addressed shareable item (`FileSharingItem`).  Everything below is
a shallow embedding of the code in `src/filesharingdownloader.cpp` and
`src/filesharingitem.cpp`: byte strings are `List Char`, Qt signals are
explicit output events, and the callback-driven orchestrator becomes a step
function over an explicit state record driven by adapter/consumer events.
-/

namespace Psi

/-! ## Byte-string utilities (QByteArray / QString operations used by the code) -/

/-- Model of `QByteArray::split(sep)`: split at every separator, keeping empty
parts. -/
def qsplit (sep : Char) : List Char → List (List Char)
  | [] => [[]]
  | c :: cs =>
    if c = sep then [] :: qsplit sep cs
    else
      match qsplit sep cs with
      | h :: t => (c :: h) :: t
      | [] => [[c]]

/-- Numeric value of a decimal digit character, `none` for non-digits. -/
def digitVal (c : Char) : Option Nat :=
  if c.isDigit then some (c.toNat - 48) else none

def parseDigitsAux : List Char → Nat → Option Nat
  | [], acc => some acc
  | c :: cs, acc =>
    match digitVal c with
    | some d => parseDigitsAux cs (acc * 10 + d)
    | none => none

def parseDigits (cs : List Char) : Option Nat :=
  match cs with
  | [] => none
  | _ => parseDigitsAux cs 0

/-- Model of `QByteArray::toLongLong`: optional sign followed by decimal
digits, the whole string; failure is `none` (the code reads the `ok` flag). -/
def toLongLong (cs : List Char) : Option Int :=
  match cs with
  | [] => none
  | c :: rest =>
    if c = '-' then (parseDigits rest).map (fun n => -(Int.ofNat n))
    else if c = '+' then (parseDigits rest).map Int.ofNat
    else (parseDigits cs).map Int.ofNat

/-- Decimal denotation of a digit string. -/
def decimalVal (cs : List Char) : Nat :=
  cs.foldl (fun a c => a * 10 + (c.toNat - 48)) 0

/-- Model of `QString::mid(n)` / dropping a scheme prefix of length `n`. -/
def strDrop (s : String) (n : Nat) : String :=
  String.mk (s.data.drop n)

/-! ## Range codec: `parseHttpRangeResponse` (filesharingdownloader.cpp:40-55)

Parses a `Content-Range: bytes start-end/total` value into
`(ok, rangeStart, rangeSize)` with `rangeSize = end - start + 1`. -/

def parseHttpRangeResponse (value : List Char) : Bool × Int × Int :=
  match qsplit ' ' value with
  | [w, rest] =>
    if w ≠ "bytes".data then (false, 0, 0)
    else
      match qsplit '-' rest with
      | [a, b] =>
        match toLongLong a with
        | none => (false, 0, 0)
        | some start =>
          match toLongLong ((qsplit '/' b).headD []) with
          | none => (false, 0, 0)
          | some e =>
            let size := e - start + 1
            if size < 0 then (false, 0, 0) else (true, start, size)
      | _ => (false, 0, 0)
  | _ => (false, 0, 0)

/-- A well-shaped `Content-Range` value `bytes a-b/c` assembled from its three
fields, used to state what the parser does on granted range headers. -/
def mkContentRange (a b c : List Char) : List Char :=
  "bytes".data ++ ' ' :: (a ++ '-' :: (b ++ '/' :: c))

/-! ## Source descriptors (FileSharingItem::sourceType, filesharingitem.cpp:417-429) -/

inductive SourceType where
  | HTTP
  | FTP
  | BOB
  | Jingle
  | SNone
  deriving DecidableEq, Repr

/-- `FileSharingItem::sourceType`: transport kind derived from the URI scheme
prefix, checked in the code's order (`http`, `xmpp`, `ftp`, `cid`). -/
def sourceType (uri : String) : SourceType :=
  if ("http".data).isPrefixOf uri.data then .HTTP
  else if ("xmpp".data).isPrefixOf uri.data then .Jingle
  else if ("ftp".data).isPrefixOf uri.data then .FTP
  else if ("cid".data).isPrefixOf uri.data then .BOB
  else .SNone

/-! ## Common adapter helper: `AbstractFileShareDownloader::downloadError`
(filesharingdownloader.cpp:66-71): a non-empty reason replaces the adapter's
`_lastError`, an empty reason leaves it unchanged; then `failed` is emitted. -/

def downloadErrorUpd (lastErr err : String) : String :=
  if err = "" then lastErr else err

/-- `AbstractFileShareDownloader::isRanged` (filesharingdownloader.cpp:105):
`rangeSize || rangeStart`. -/
def isRangedPair (rangeStart rangeSize : Int) : Bool :=
  !(rangeSize = 0) || !(rangeStart = 0)

/-! ## Bulk-transfer adapter (`NAMFileShareDownloader`, filesharingdownloader.cpp:225-302) -/

/-- Outcome of the `metaDataChanged` handler of the bulk-transfer adapter:
either `metaDataChanged` is emitted with the adapter's (possibly updated)
range fields, or the adapter fails (`namFailed` → `downloadError`). -/
inductive NamMetaOutcome where
  | metaOk (rStart rSize : Int)
  | namFail (err : String)
  deriving DecidableEq, Repr

/-- The lambda connected to `QNetworkReply::metaDataChanged`
(filesharingdownloader.cpp:254-272).  `status` is the HTTP status code,
`contentRange` the raw `Content-Range` header (empty when absent),
`reqStart`/`reqSize` the adapter's range fields as set by `setRange`. -/
def namMetaHandler (status : Nat) (contentRange : List Char) (reqStart reqSize : Int) :
    NamMetaOutcome :=
  if status = 206 then
    match parseHttpRangeResponse contentRange with
    | (parsed, rs, rz) =>
      if contentRange ≠ [] ∧ parsed = false then .namFail "Invalid HTTP response range"
      else .metaOk rs rz
  else if status ≠ 200 ∧ status ≠ 203 then
    .namFail ("Unexpected HTTP status" ++ ": " ++ toString status)
  else .metaOk reqStart reqSize

/-- Signal chosen by the lambda connected to `QNetworkReply::finished`
(filesharingdownloader.cpp:277-283). -/
inductive NamFinOutcome where
  | discSig
  | failSig
  deriving DecidableEq, Repr

/-- The `finished` handler: a reply error emits `failed`, otherwise
`disconnected`; the adapter's `_lastError` is not touched on either path. -/
def namFinished (lastErr : String) (replyHasError : Bool) : String × NamFinOutcome :=
  (lastErr, if replyHasError then .failSig else .discSig)

/-! ## Inline-blob adapter (`BOBFileShareDownloader`, filesharingdownloader.cpp:304-371) -/

structure BobState where
  lastErrorB : String
  rangeStartB : Int
  rangeSizeB : Int
  receivedData : List Nat
  destroyed : Bool
  connectedB : Bool
  deriving DecidableEq, Repr

inductive BobOut where
  | bobMetaSig
  | bobDiscSig
  | bobFailSig
  deriving DecidableEq, Repr

def bobOfflineError : String := "\"Bits Of Binary\" data source is offline"

def bobLoadError : String := "Download using \"Bits Of Binary\" failed"

/-- The `loadBob` completion callback (filesharingdownloader.cpp:328-344). -/
def bobOnLoaded (st : BobState) (ok : Bool) (data : List Nat) : BobState × List BobOut :=
  if st.destroyed then (st, [])
  else
    let st := { st with connectedB := true }
    if ok = false then
      ({ st with lastErrorB := downloadErrorUpd st.lastErrorB bobLoadError }, [.bobFailSig])
    else
      let st := { st with receivedData := data }
      let st :=
        if isRangedPair st.rangeStartB st.rangeSizeB then
          { st with rangeStartB := 0, rangeSizeB := 0 }
        else st
      ({ st with connectedB := false }, [.bobMetaSig, .bobDiscSig])

/-- `AbstractFileShareDownloader::selectOnlineJid`
(filesharingdownloader.cpp:73-85): first candidate that is not the local
account jid and has a live resource in the user list (`reachable`). -/
def selectOnlineJid (selfJ : String) (reachable : String → Bool) (jids : List String) :
    Option String :=
  jids.find? (fun j => (j != selfJ) && reachable j)

/-- What `BOBFileShareDownloader::start` does after the reachability check:
either an immediate failure, or a small-object request naming its target jid
and object identifier. -/
inductive BobStartOutcome where
  | bobImmediateFail (err : String)
  | bobRequest (target : String) (objectId : String)
  deriving DecidableEq, Repr

/-- `BOBFileShareDownloader::start` (filesharingdownloader.cpp:319-345): when
no candidate is reachable it fails at once; otherwise it strips the 4-char
`cid:` scheme prefix and issues `loadBob(jids.first(), ...)`. -/
def bobStart (selfJ : String) (reachable : String → Bool) (jids : List String)
    (sourceUri : String) : BobStartOutcome :=
  match selectOnlineJid selfJ reachable jids with
  | none => .bobImmediateFail bobOfflineError
  | some _ => .bobRequest (jids.headD "") (strDrop sourceUri 4)

/-! ## Download orchestrator (`FileShareDownloader`, filesharingdownloader.cpp:373-588)

The private session state, the signal handlers wired in
`Private::startNextDownloader`, and the `readData` pull.  Adapter observables
(its `lastError`, `isConnected`, `bytesAvailable`, `read` result, and the
success of staging-file operations) are delivered as event payloads. -/

structure Orc where
  uris : List String
  tmpFile : Bool
  dstFileName : String
  lastError : String
  rangeStart : Int
  rangeSize : Int
  hasDownloader : Bool
  metaReady : Bool
  success : Bool
  deriving DecidableEq, Repr

/-- Signals the orchestrator forwards upward (`q->...` emissions). -/
inductive Out where
  | finishedSig
  | metaChangedSig
  | readyReadSig
  | disconnectedSig
  deriving DecidableEq, Repr

def noSourcesError : String := "Download sources are not given"

/-- `Private::startNextDownloader` (filesharingdownloader.cpp:392-465).
`adErr` is the current adapter's `lastError()` at call time (read only when a
downloader exists). -/
def startNextDownloader (s : Orc) (adErr : String) : Orc × List Out :=
  let s := if s.hasDownloader then { s with lastError := adErr, hasDownloader := false } else s
  match s.uris.getLast? with
  | none =>
    let e := if s.lastError = "" then noSourcesError else s.lastError
    ({ s with success := false, lastError := e }, [.finishedSig])
  | some uri =>
    let s := { s with uris := s.uris.dropLast }
    if sourceType uri = .SNone then
      ({ s with lastError := "Unhandled downloader", success := false }, [.finishedSig])
    else
      ({ s with hasDownloader := true }, [])

/-- The lambda connected to `AbstractFileShareDownloader::failed`
(filesharingdownloader.cpp:429-437). -/
def onFailed (s : Orc) (adErr : String) : Orc × List Out :=
  let s := { s with success := false }
  if s.metaReady then ({ s with lastError := adErr }, [.finishedSig])
  else startNextDownloader s adErr

/-- The lambda connected to `AbstractFileShareDownloader::metaDataChanged`
(filesharingdownloader.cpp:439-455).  `adRangeStart`/`adRangeSize` is the
adapter's `range()`; `tmpOpenOk` tells whether opening the staging file
succeeded, `tmpErr` its error string otherwise. -/
def onMetaDataChanged (s : Orc) (adRangeStart adRangeSize : Int) (tmpOpenOk : Bool)
    (tmpErr : String) : Orc × List Out :=
  let s := { s with metaReady := true }
  if tmpOpenOk then
    ({ s with tmpFile := true, rangeStart := adRangeStart, rangeSize := adRangeSize },
      [.metaChangedSig])
  else
    ({ s with tmpFile := false, lastError := tmpErr, success := false }, [.finishedSig])

/-- The lambda connected to `AbstractFileShareDownloader::disconnected`
(filesharingdownloader.cpp:458-462).  `adAvail` is the adapter's
`bytesAvailable()`. -/
def onDisconnected (s : Orc) (adAvail : Int) : Orc × List Out :=
  if adAvail = 0 then (s, [.disconnectedSig, .finishedSig])
  else (s, [.disconnectedSig])

/-- `FileShareDownloader::readData` (filesharingdownloader.cpp:558-578): one
consumer pull.  `conn`/`adAvail` are the adapter's `isConnected()` and
`bytesAvailable()` after the read, `nRead` the byte count the adapter's
`read` returned, `writeOk` whether the staging-file write wrote everything,
`writeErr` its error string otherwise.  Returns the new state, the emitted
signals and the value returned to the caller. -/
def readData (s : Orc) (conn : Bool) (adAvail : Int) (nRead : Int) (writeOk : Bool)
    (writeErr : String) : Orc × List Out × Int :=
  if !s.tmpFile || !s.hasDownloader then (s, [], 0)
  else if !writeOk then ({ s with lastError := writeErr }, [], 0)
  else if !conn && adAvail == 0 then ({ s with success := true }, [.finishedSig], nRead)
  else (s, [], nRead)

/-- `FileShareDownloader::fileName` (filesharingdownloader.cpp:548-554). -/
def fileName (s : Orc) : String :=
  if s.success then s.dstFileName else ""

/-- One externally triggered step of the download session: an adapter signal
or a consumer pull, with the adapter/filesystem observables it carries. -/
inductive Ev where
  | failedEv (adErr : String)
  | metaEv (adRangeStart adRangeSize : Int) (tmpOpenOk : Bool) (tmpErr : String)
  | discEv (adAvail : Int)
  | pullEv (conn : Bool) (adAvail : Int) (nRead : Int) (writeOk : Bool) (writeErr : String)
  deriving DecidableEq, Repr

def step (s : Orc) : Ev → Orc × List Out
  | .failedEv e => onFailed s e
  | .metaEv a b ok er => onMetaDataChanged s a b ok er
  | .discEv a => onDisconnected s a
  | .pullEv c a n w we =>
    match readData s c a n w we with
    | (s1, outs, _) => (s1, outs)

/-- Run a download session over a list of events, collecting emitted signals. -/
def run (s : Orc) : List Ev → Orc × List Out
  | [] => (s, [])
  | e :: es =>
    match step s e with
    | (s1, o1) =>
      match run s1 es with
      | (s2, o2) => (s2, o1 ++ o2)

/-- Over-approximation of the events that can make `readData` set the
terminal success flag: a pull that sees the adapter disconnected with zero
bytes available and whose staging write succeeds. -/
def mayDeclareSuccess : Ev → Bool
  | .pullEv c a _ w _ => (!c && a == 0) && w
  | _ => false

/-! ## `FileShareDownloader::open` (filesharingdownloader.cpp:492-526)

Destination-filename selection and the first download attempt.  The
documents directory is a list of existing file names, `cleanedName` is the
result of the external `FileUtil::cleanFileName` on the desired name, and
`sumsHex` the hex of the first digest. -/

/-- `QFileInfo::completeBaseName`: everything before the last dot (the whole
name when there is no dot). -/
def completeBaseName (fn : List Char) : List Char :=
  let parts := qsplit '.' fn
  if parts.length ≤ 1 then fn else List.intercalate ['.'] parts.dropLast

/-- `QFileInfo::suffix`: everything after the last dot (empty when there is
no dot). -/
def suffixOf (fn : List Char) : List Char :=
  let parts := qsplit '.' fn
  if parts.length ≤ 1 then [] else parts.getLastD []

/-- The candidate name built inside the collision loop:
`"%1-%2.%3".arg(baseName, QString::number(index), suffix)` (or without the
suffix part when the suffix is empty). -/
def candidateName (base suf : List Char) (index : Nat) : List Char :=
  if suf ≠ [] then base ++ '-' :: (Nat.repr index).data ++ '.' :: suf
  else base ++ '-' :: (Nat.repr index).data

/-- The `while (docDir.exists(fn))` loop (filesharingdownloader.cpp:512-519),
fuelled.  `index` is the loop's `int index = 1` variable: the loop body never
increments it.  `none` means the fuel ran out while the loop was still
spinning. -/
def collideLoop (dir : List (List Char)) (base suf : List Char) :
    Nat → Nat → List Char → Option (List Char)
  | 0, _, _ => none
  | fuel + 1, index, fn =>
    if fn ∈ dir then collideLoop dir base suf fuel index (candidateName base suf index)
    else some fn

/-- `FileShareDownloader::open`.  `modeRead` is `mode & QIODevice::ReadOnly`,
`alreadyOpen` the `isOpen()` test, `docPath` the documents directory path.
Returns `none` when the filename loop exceeds the fuel (it diverges),
otherwise the returned boolean together with the resulting session state and
emitted signals. -/
def openDl (s : Orc) (modeRead alreadyOpen : Bool) (dir : List (List Char))
    (docPath cleanedName sumsHex : List Char) (fuel : Nat) :
    Option (Bool × Orc × List Out) :=
  if s.uris.isEmpty && !modeRead then some (false, { s with success := false }, [])
  else if alreadyOpen then some (true, s, [])
  else
    let fn := if cleanedName = [] then sumsHex else cleanedName
    match collideLoop dir (completeBaseName fn) (suffixOf fn) fuel 1 fn with
    | none => none
    | some fn2 =>
      let s := { s with dstFileName := String.mk (docPath ++ '/' :: fn2) }
      match startNextDownloader s "" with
      | (s2, outs) => some (true, s2, outs)

/-! ## Shareable item publish pipeline (`FileSharingItem::publish`,
filesharingitem.cpp:290-348) -/

inductive FileTypeI where
  | FTRemoteFile
  | FTLocalFile
  | FTLocalLink
  | FTTempFile
  deriving DecidableEq, Repr

/-- The item fields `publish` and its `checkFinished` closure read or write.
`httpFinished`/`jingleFinished`/`publishNotified` are the `_flags` bits of
the same names. -/
structure ItemState where
  httpFinished : Bool
  jingleFinished : Bool
  publishNotified : Bool
  fileTypeI : FileTypeI
  fileNameI : String
  mimeTypeI : String
  urisI : List String
  deriving DecidableEq, Repr

/-- Externally visible side effects of the publish pipeline. -/
inductive PubEffect where
  | uploadStarted
  | cacheMoved
  | cacheSavedLink
  | publishFinishedSig
  deriving DecidableEq, Repr

/-- The `checkFinished` closure (filesharingitem.cpp:294-314).  `cacheDir`
and `cachedName` model the external cache bridge's storage location for the
moved-in entry. -/
def checkFinished (cacheDir cachedName : String) (st : ItemState) :
    ItemState × List PubEffect :=
  if !st.publishNotified && (st.httpFinished && st.jingleFinished) then
    if st.fileTypeI = .FTTempFile then
      ({ st with
          fileTypeI := .FTLocalFile
          fileNameI := cacheDir ++ "/" ++ cachedName
          publishNotified := true },
        [.cacheMoved, .publishFinishedSig])
    else
      ({ st with publishNotified := true }, [.cacheSavedLink, .publishFinishedSig])
  else (st, [])

/-- `FileSharingItem::publish` (filesharingitem.cpp:290-348), synchronous
part: the HTTP branch (immediate completion on `DiscoNotFound`, otherwise an
upload is started whose completion arrives later) followed by the jingle
branch (always completes immediately). -/
def publish (st : ItemState) (discoNotFound : Bool) (cacheDir cachedName : String) :
    ItemState × List PubEffect :=
  let r1 :=
    if !st.httpFinished then
      if discoNotFound then checkFinished cacheDir cachedName { st with httpFinished := true }
      else (st, [PubEffect.uploadStarted])
    else (st, [])
  match r1 with
  | (st1, eff1) =>
    let r2 :=
      if !st1.jingleFinished then
        checkFinished cacheDir cachedName { st1 with jingleFinished := true }
      else (st1, [])
    match r2 with
    | (st2, eff2) => (st2, eff1 ++ eff2)

/-! ## Concrete sample states used by witnesses and counterexamples -/

/-- A session that already delivered metadata for its active adapter while a
further source is still on the ranked list. -/
def metaReadySession : Orc :=
  { uris := ["https://b.example/f"], tmpFile := true, dstFileName := "/docs/f.bin"
    lastError := "", rangeStart := 0, rangeSize := 0, hasDownloader := true
    metaReady := true, success := false }

/-- A fresh session over an HTTP source and an inline-blob source. -/
def twoSourceSession : Orc :=
  { uris := ["https://example.org/f", "cid:obj@srv"], tmpFile := false, dstFileName := ""
    lastError := "", rangeStart := 0, rangeSize := 0, hasDownloader := false
    metaReady := false, success := false }

/-- A streaming session whose adapter has gone quiet: staging file open,
adapter attached, metadata delivered, success not yet declared. -/
def drainedSession : Orc :=
  { uris := [], tmpFile := true, dstFileName := "/docs/f.bin", lastError := ""
    rangeStart := 0, rangeSize := 0, hasDownloader := true, metaReady := true
    success := false }

/-- A downloader constructed over an empty ranked source list. -/
def emptySourcesSession : Orc :=
  { uris := [], tmpFile := false, dstFileName := "", lastError := "", rangeStart := 0
    rangeSize := 0, hasDownloader := false, metaReady := false, success := false }

/-- A fresh session over a single HTTP source, about to pick `a.txt` as its
destination name. -/
def collidingSession : Orc :=
  { uris := ["https://x.example/a.txt"], tmpFile := false, dstFileName := ""
    lastError := "", rangeStart := 0, rangeSize := 0, hasDownloader := false
    metaReady := false, success := false }

/-- Documents directory already holding both `a.txt` and `a-1.txt`. -/
def collidingDir : List (List Char) := ["a.txt".data, "a-1.txt".data]

/-- A session with an attached adapter that has not yet reported metadata. -/
def preMetaSession : Orc :=
  { uris := ["https://a.example/f"], tmpFile := false, dstFileName := "", lastError := ""
    rangeStart := 0, rangeSize := 0, hasDownloader := true, metaReady := false
    success := false }

/-- An inline-blob adapter right after `start`, with a requested range. -/
def rangedBobAdapter : BobState :=
  { lastErrorB := "", rangeStartB := 5, rangeSizeB := 10, receivedData := []
    destroyed := false, connectedB := false }

/-- An item whose bulk-upload and peer-transfer flags are both already set. -/
def publishedItem : ItemState :=
  { httpFinished := true, jingleFinished := true, publishNotified := true
    fileTypeI := .FTLocalFile, fileNameI := "/cache/x.png", mimeTypeI := "image/png"
    urisI := ["https://up.example/x.png"] }

/-! ## Helper lemmas -/

theorem qsplit_of_not_mem (sep : Char) (xs : List Char) (h : sep ∉ xs) :
    qsplit sep xs = [xs] := by
  induction xs with
  | nil => rfl
  | cons c cs ih =>
    have hc : c ≠ sep := by
      intro e
      exact h (e ▸ List.mem_cons_self c cs)
    have hcs : sep ∉ cs := fun hm => h (List.mem_cons_of_mem _ hm)
    simp [qsplit, hc, ih hcs]

theorem qsplit_append (sep : Char) (xs ys : List Char) (h : sep ∉ xs) :
    qsplit sep (xs ++ sep :: ys) = xs :: qsplit sep ys := by
  induction xs with
  | nil => simp [qsplit]
  | cons c cs ih =>
    have hc : c ≠ sep := by
      intro e
      exact h (e ▸ List.mem_cons_self c cs)
    have hcs : sep ∉ cs := fun hm => h (List.mem_cons_of_mem _ hm)
    simp [qsplit, hc, ih hcs]

theorem parseDigitsAux_digits (cs : List Char) (a : Nat)
    (h : ∀ c ∈ cs, c.isDigit = true) :
    parseDigitsAux cs a = some (cs.foldl (fun x c => x * 10 + (c.toNat - 48)) a) := by
  induction cs generalizing a with
  | nil => rfl
  | cons c cs ih =>
    have hc : c.isDigit = true := h c (List.mem_cons_self c cs)
    have hrest : ∀ d ∈ cs, d.isDigit = true := fun d hd => h d (List.mem_cons_of_mem _ hd)
    simp [parseDigitsAux, digitVal, hc, ih _ hrest]

theorem toLongLong_digits (a : List Char) (hne : a ≠ [])
    (ha : ∀ ch ∈ a, ch.isDigit = true) :
    toLongLong a = some ((decimalVal a : Int)) := by
  cases a with
  | nil => exact absurd rfl hne
  | cons ch rest =>
    have hch : ch.isDigit = true := ha ch (List.mem_cons_self ch rest)
    have h1 : ch ≠ '-' := by
      intro e
      rw [e] at hch
      exact absurd hch (by decide)
    have h2 : ch ≠ '+' := by
      intro e
      rw [e] at hch
      exact absurd hch (by decide)
    have h3 : parseDigitsAux (ch :: rest) 0 = some (decimalVal (ch :: rest)) :=
      parseDigitsAux_digits _ 0 ha
    simp [toLongLong, h1, h2, parseDigits, h3, decimalVal]

theorem not_mem_of_all_digits (a : List Char) (ha : ∀ ch ∈ a, ch.isDigit = true)
    (c : Char) (hc : c.isDigit = false) : c ∉ a := by
  intro hm
  rw [ha c hm] at hc
  exact Bool.noConfusion hc

/-- On a well-shaped `bytes a-b/c` header with decimal `a ≤ b`, the range
codec accepts and yields `(a, b - a + 1)`; the `total` field is never read. -/
theorem parse_mkContentRange (a b c : List Char)
    (ha : ∀ ch ∈ a, ch.isDigit = true) (hane : a ≠ [])
    (hb : ∀ ch ∈ b, ch.isDigit = true) (hbne : b ≠ [])
    (hc1 : ' ' ∉ c) (hc2 : '-' ∉ c)
    (hle : decimalVal a ≤ decimalVal b) :
    parseHttpRangeResponse (mkContentRange a b c)
      = (true, (decimalVal a : Int), (decimalVal b : Int) - decimalVal a + 1) := by
  have hsA : ' ' ∉ a := not_mem_of_all_digits a ha ' ' (by decide)
  have hsB : ' ' ∉ b := not_mem_of_all_digits b hb ' ' (by decide)
  have hdA : '-' ∉ a := not_mem_of_all_digits a ha '-' (by decide)
  have hdB : '-' ∉ b := not_mem_of_all_digits b hb '-' (by decide)
  have hslB : '/' ∉ b := not_mem_of_all_digits b hb '/' (by decide)
  have hrest : ' ' ∉ a ++ '-' :: (b ++ '/' :: c) := by
    intro hm
    rcases List.mem_append.mp hm with hma | hmr
    · exact hsA hma
    · rcases List.mem_cons.mp hmr with he | hmr2
      · exact absurd he (by decide)
      · rcases List.mem_append.mp hmr2 with hmb | hmc
        · exact hsB hmb
        · rcases List.mem_cons.mp hmc with he2 | hmc2
          · exact absurd he2 (by decide)
          · exact hc1 hmc2
  have hrest2 : '-' ∉ b ++ '/' :: c := by
    intro hm
    rcases List.mem_append.mp hm with hmb | hmc
    · exact hdB hmb
    · rcases List.mem_cons.mp hmc with he | hmc2
      · exact absurd he (by decide)
      · exact hc2 hmc2
  have h1 : qsplit ' ' (mkContentRange a b c)
      = ["bytes".data, a ++ '-' :: (b ++ '/' :: c)] := by
    unfold mkContentRange
    rw [qsplit_append ' ' "bytes".data _ (by decide), qsplit_of_not_mem ' ' _ hrest]
  have h2 : qsplit '-' (a ++ '-' :: (b ++ '/' :: c)) = [a, b ++ '/' :: c] := by
    rw [qsplit_append '-' a _ hdA, qsplit_of_not_mem '-' _ hrest2]
  have h3 : qsplit '/' (b ++ '/' :: c) = b :: qsplit '/' c := qsplit_append '/' b c hslB
  have h4 : toLongLong a = some ((decimalVal a : Int)) := toLongLong_digits a hane ha
  have h5 : toLongLong b = some ((decimalVal b : Int)) := toLongLong_digits b hbne hb
  have hno : ¬ ((decimalVal b : Int) - (decimalVal a : Int) + 1 < 0) := by
    have hcast : (decimalVal a : Int) ≤ (decimalVal b : Int) := by exact_mod_cast hle
    omega
  simp [parseHttpRangeResponse, h1, h2, h3, h4, h5, hno]

theorem startNextDownloader_success_false (s : Orc) (e : String)
    (hs : s.success = false) :
    (startNextDownloader s e).1.success = false := by
  cases hd : s.hasDownloader <;>
    simp only [startNextDownloader, hd, if_true, if_false, Bool.false_eq_true] <;>
    split <;> (try split) <;> simp [hs]

theorem step_preserves_failure (s : Orc) (e : Ev) (hs : s.success = false)
    (he : mayDeclareSuccess e = false) : (step s e).1.success = false := by
  cases e with
  | failedEv a =>
    simp only [step, onFailed]
    split
    · simp
    · exact startNextDownloader_success_false _ _ rfl
  | metaEv a b ok er =>
    simp only [step, onMetaDataChanged]
    split <;> simp [hs]
  | discEv a =>
    simp only [step, onDisconnected]
    split <;> simp [hs]
  | pullEv c a n w we =>
    simp only [mayDeclareSuccess] at he
    simp only [step, readData]
    split
    · exact hs
    · split
      · exact hs
      · rename_i hw
        have hw2 : w = true := by
          cases w
          · simp at hw
          · rfl
        rw [hw2, Bool.and_true] at he
        split
        · rename_i hcond
          rw [he] at hcond
          exact absurd hcond (by simp)
        · exact hs

theorem run_preserves_failure (s : Orc) (evs : List Ev) (hs : s.success = false)
    (he : ∀ e ∈ evs, mayDeclareSuccess e = false) : (run s evs).1.success = false := by
  induction evs generalizing s with
  | nil => simpa [run] using hs
  | cons e es ih =>
    rcases hst : step s e with ⟨s1, o1⟩
    rcases hr : run s1 es with ⟨s2, o2⟩
    have h1 : s1.success = false := by
      have := step_preserves_failure s e hs (he e (List.mem_cons_self e es))
      rw [hst] at this
      exact this
    have h2 : s2.success = false := by
      have := ih s1 h1 (fun x hx => he x (List.mem_cons_of_mem _ hx))
      rw [hr] at this
      exact this
    simp [run, hst, hr, h2]

/-- Once the collision loop's recomputed candidate is itself an existing file,
the loop can never exit: the candidate never changes because `index` is never
incremented. -/
theorem collideLoop_stuck (dir : List (List Char)) (base suf : List Char) (i : Nat)
    (fn : List Char) (h1 : fn ∈ dir) (h2 : candidateName base suf i = fn) :
    ∀ fuel, collideLoop dir base suf fuel i fn = none := by
  intro fuel
  induction fuel with
  | zero => rfl
  | succ k ih =>
    simp only [collideLoop, if_pos h1, h2]
    exact ih

/-! ## Claim theorems -/

/-- Claim C1: once the active transport adapter has emitted `metaDataChanged`
(so `metaReady` is set), a subsequent `failed` signal finishes the whole
download terminally with failure, carrying the adapter's last error text,
without popping or starting any further source — even if sources remain on
the ranked list. -/
theorem failed_after_meta_is_terminal (s : Orc) (adErr : String)
    (h : s.metaReady = true) :
    onFailed s adErr = ({ s with success := false, lastError := adErr }, [Out.finishedSig]) ∧
    (onFailed s adErr).1.uris = s.uris ∧
    (onFailed s adErr).1.hasDownloader = s.hasDownloader := by
  refine ⟨?_, ?_, ?_⟩ <;> simp [onFailed, h]

/-- Witness for C1 at a session that still has a fallback source listed. -/
theorem failed_after_meta_is_terminal_witness :
    onFailed metaReadySession "stream broke"
      = ({ metaReadySession with success := false, lastError := "stream broke" },
          [Out.finishedSig]) ∧
    (onFailed metaReadySession "stream broke").1.uris = ["https://b.example/f"] := by
  have h := failed_after_meta_is_terminal metaReadySession "stream broke" rfl
  exact ⟨h.1, h.2.1.trans rfl⟩

/-- Counterexample to claim C2 as stated: after the inline-blob source fails
with a recorded non-empty error and the remaining HTTP source then fails with
an empty adapter error (the bulk adapter's `finished`-with-network-error path
emits `failed` without ever setting `_lastError`), the exhausted download
finishes with the generic `Download sources are not given` text — not with
the most recently recorded non-empty error. -/
theorem exhaustion_error_not_most_recent :
    (onFailed (startNextDownloader twoSourceSession "").1 bobOfflineError).1.lastError
      = bobOfflineError ∧
    bobStart "me@srv/r" (fun _ => false) ["peer@srv/r"] "cid:obj@srv"
      = .bobImmediateFail bobOfflineError ∧
    namFinished "" true = ("", .failSig) ∧
    (onFailed (onFailed (startNextDownloader twoSourceSession "").1 bobOfflineError).1 "").2
      = [Out.finishedSig] ∧
    (onFailed (onFailed (startNextDownloader twoSourceSession "").1 bobOfflineError).1
        "").1.lastError = noSourcesError ∧
    (onFailed (onFailed (startNextDownloader twoSourceSession "").1 bobOfflineError).1
        "").1.success = false ∧
    noSourcesError ≠ bobOfflineError := by
  decide

/-- Claim C2 (amended): a `failed` before any `metaDataChanged` copies the
failing adapter's last error text — even an empty one, overwriting any
earlier recorded error — destroys the adapter, and retries with the source
popped from the end of the ranked list when one remains; when the list is
exhausted the download finishes with failure carrying the last adapter's
error text if non-empty, and otherwise the generic
`Download sources are not given` text. -/
theorem failed_before_meta_falls_back (s : Orc) (adErr : String)
    (hm : s.metaReady = false) (hd : s.hasDownloader = true) :
    (s.uris = [] →
      onFailed s adErr
        = ({ s with success := false, hasDownloader := false,
                    lastError := if adErr = "" then noSourcesError else adErr },
            [Out.finishedSig])) ∧
    (∀ us u, s.uris = us ++ [u] → sourceType u ≠ .SNone →
      onFailed s adErr
        = ({ s with success := false, uris := us, lastError := adErr,
                    hasDownloader := true }, [])) := by
  constructor
  · intro hu
    simp [onFailed, hm, startNextDownloader, hd, hu]
  · intro us u hu hne
    simp [onFailed, hm, startNextDownloader, hd, hu, hne]

/-- Witness for C2 (amended): a pre-metadata failure with one HTTP source
remaining pops and starts that source. -/
theorem failed_before_meta_falls_back_witness :
    onFailed preMetaSession "connection refused"
      = ({ preMetaSession with success := false, uris := [],
                               lastError := "connection refused",
                               hasDownloader := true }, []) :=
  (failed_before_meta_falls_back preMetaSession "connection refused" rfl rfl).2
    [] "https://a.example/f" rfl (by decide)

/-- Claim C3 (code bug): `readData` emits the finished-with-success signal at
every pull that finds the adapter disconnected with zero bytes available —
a second such pull in the same session emits it again, with the success flag
still set, instead of exactly once. -/
theorem finished_emitted_twice_on_second_pull :
    (run drainedSession [.pullEv false 0 0 true ""]).2 = [Out.finishedSig] ∧
    (run drainedSession [.pullEv false 0 0 true ""]).1.success = true ∧
    (run drainedSession [.pullEv false 0 0 true "", .pullEv false 0 0 true ""]).2
      = [Out.finishedSig, Out.finishedSig] ∧
    (run drainedSession [.pullEv false 0 0 true "", .pullEv false 0 0 true ""]).1.success
      = true := by
  decide

/-- Claim C4 (code bug): with an empty ranked source list, `open` in
`ReadOnly` mode is not rejected — it returns `true` and the attempt machinery
immediately finishes with failure; the guard `!uris.size && !(mode &
ReadOnly)` only rejects the empty list for modes without `ReadOnly`. -/
theorem open_empty_list_readonly_not_rejected :
    openDl emptySourcesSession true false [] "/docs".data "f.bin".data "ab12".data 1
      = some (true,
          { uris := [], tmpFile := false, dstFileName := "/docs/f.bin",
            lastError := noSourcesError, rangeStart := 0, rangeSize := 0,
            hasDownloader := false, metaReady := false, success := false },
          [Out.finishedSig]) ∧
    openDl emptySourcesSession false false [] "/docs".data "f.bin".data "ab12".data 1
      = some (false, { emptySourcesSession with success := false }, []) := by
  decide

/-- Claim C5 (code bug): the destination-filename loop never increments its
`index` variable, so whenever both the desired name `a.txt` and the first
disambiguated candidate `a-1.txt` already exist in the documents directory,
`open` recomputes `a-1.txt` forever: for every fuel bound the loop is still
spinning. -/
theorem open_filename_loop_diverges :
    ∀ fuel : Nat,
      openDl collidingSession true false collidingDir "/docs".data "a.txt".data
        "ab12".data fuel = none := by
  intro fuel
  have hstuck := collideLoop_stuck collidingDir "a".data "txt".data 1 "a-1.txt".data
    (by decide) (by decide)
  have hloop : collideLoop collidingDir "a".data "txt".data fuel 1 "a.txt".data = none := by
    cases fuel with
    | zero => rfl
    | succ k =>
      have h1 : "a.txt".data ∈ collidingDir := by decide
      simp only [collideLoop, if_pos h1]
      rw [show candidateName "a".data "txt".data 1 = "a-1.txt".data from by decide]
      exact hstuck k
  have hbase : completeBaseName "a.txt".data = "a".data := by decide
  have hsuf : suffixOf "a.txt".data = "txt".data := by decide
  simp [openDl, collidingSession, hbase, hsuf, hloop]

/-- Counterexample to claim C6 as stated: an HTTP 200 response is not treated
as a non-ranged payload — with a requested range of `(5, 10)` the adapter
emits `metaDataChanged` with its range fields still `(5, 10)`, and by the
adapter's own `isRanged` it still reports a ranged transfer; the reset to
`(0, 0)` sits only in the other-status failure branch. -/
theorem nam_200_keeps_requested_range :
    namMetaHandler 200 [] 5 10 = .metaOk 5 10 ∧
    isRangedPair 5 10 = true ∧
    NamMetaOutcome.metaOk 5 10 ≠ NamMetaOutcome.metaOk 0 0 := by
  decide

/-- Claim C6 (amended): on HTTP 206 a well-shaped granted
`Content-Range: bytes start-end/total` is parsed into the effective range
`(start, end - start + 1)` and a malformed non-empty header is a hard
failure; an HTTP 200 or 203 response is accepted as a full-payload response
but leaves the adapter's range fields at the requested values (no downgrade
to `(0, 0)`); any other status is a hard failure carrying the status code. -/
theorem nam_response_handling :
    (∀ a b c reqS reqZ, (∀ ch ∈ a, ch.isDigit = true) → a ≠ [] →
      (∀ ch ∈ b, ch.isDigit = true) → b ≠ [] → ' ' ∉ c → '-' ∉ c →
      decimalVal a ≤ decimalVal b →
      namMetaHandler 206 (mkContentRange a b c) reqS reqZ
        = .metaOk (decimalVal a) ((decimalVal b : Int) - decimalVal a + 1)) ∧
    (∀ cr reqS reqZ, cr ≠ [] → (parseHttpRangeResponse cr).1 = false →
      namMetaHandler 206 cr reqS reqZ = .namFail "Invalid HTTP response range") ∧
    (∀ status cr reqS reqZ, status = 200 ∨ status = 203 →
      namMetaHandler status cr reqS reqZ = .metaOk reqS reqZ) ∧
    (∀ status cr reqS reqZ, status ≠ 200 → status ≠ 203 → status ≠ 206 →
      namMetaHandler status cr reqS reqZ
        = .namFail ("Unexpected HTTP status" ++ ": " ++ toString status)) := by
  refine ⟨?_, ?_, ?_, ?_⟩
  · intro a b c reqS reqZ ha hane hb hbne hc1 hc2 hle
    have hp := parse_mkContentRange a b c ha hane hb hbne hc1 hc2 hle
    simp [namMetaHandler, hp]
  · intro cr reqS reqZ hne hp
    rcases hq : parseHttpRangeResponse cr with ⟨p, rs, rz⟩
    rw [hq] at hp
    simp only at hp
    simp [namMetaHandler, hq, hp, hne]
  · rintro status cr reqS reqZ (rfl | rfl) <;> simp [namMetaHandler]
  · intro status cr reqS reqZ h1 h2 h3
    simp [namMetaHandler, h1, h2, h3]

/-- Witness for C6 (amended): the header `bytes 100-199/1000` on a 206 yields
the effective range `(100, 100)`; the invalid header `bytes=100-199` on a 206
fails; a 203 keeps a requested `(7, 3)`; a 404 fails with the status text. -/
theorem nam_response_handling_witness :
    namMetaHandler 206 (mkContentRange "100".data "199".data "1000".data) 4 4
      = .metaOk (decimalVal "100".data)
          ((decimalVal "199".data : Int) - decimalVal "100".data + 1) ∧
    namMetaHandler 206 "bytes=100-199".data 0 0 = .namFail "Invalid HTTP response range" ∧
    namMetaHandler 203 [] 7 3 = .metaOk 7 3 ∧
    namMetaHandler 404 [] 0 0
      = .namFail ("Unexpected HTTP status" ++ ": " ++ toString (404 : Nat)) :=
  ⟨nam_response_handling.1 "100".data "199".data "1000".data 4 4 (by decide) (by decide)
      (by decide) (by decide) (by decide) (by decide) (by decide),
    nam_response_handling.2.1 "bytes=100-199".data 0 0 (by decide) (by decide),
    nam_response_handling.2.2.1 203 [] 7 3 (Or.inr rfl),
    nam_response_handling.2.2.2 404 [] 0 0 (by decide) (by decide) (by decide)⟩

/-- Claim C7: for any requested range other than `(0, 0)` (the adapter's own
`isRanged` test), a successful inline-blob fetch discards the range — the
state at `metaDataChanged` carries `(0, 0)` and the whole object — and
`metaDataChanged` is immediately followed by `disconnected`. -/
theorem bob_range_downgrade (st : BobState) (data : List Nat)
    (hd : st.destroyed = false)
    (hr : isRangedPair st.rangeStartB st.rangeSizeB = true) :
    (bobOnLoaded st true data).2 = [BobOut.bobMetaSig, BobOut.bobDiscSig] ∧
    (bobOnLoaded st true data).1.rangeStartB = 0 ∧
    (bobOnLoaded st true data).1.rangeSizeB = 0 ∧
    (bobOnLoaded st true data).1.receivedData = data := by
  refine ⟨?_, ?_, ?_, ?_⟩ <;> simp [bobOnLoaded, hd, hr]

/-- Witness for C7 at a requested range of `(5, 10)` and a 3-byte object. -/
theorem bob_range_downgrade_witness :
    (bobOnLoaded rangedBobAdapter true [1, 2, 3]).2
      = [BobOut.bobMetaSig, BobOut.bobDiscSig] ∧
    (bobOnLoaded rangedBobAdapter true [1, 2, 3]).1.rangeStartB = 0 ∧
    (bobOnLoaded rangedBobAdapter true [1, 2, 3]).1.rangeSizeB = 0 :=
  ⟨(bob_range_downgrade rangedBobAdapter [1, 2, 3] rfl (by decide)).1,
    (bob_range_downgrade rangedBobAdapter [1, 2, 3] rfl (by decide)).2.1,
    (bob_range_downgrade rangedBobAdapter [1, 2, 3] rfl (by decide)).2.2.1⟩

/-- Claim C8 (code bug): the inline-blob adapter does fail immediately with
no request when no candidate peer is reachable, and does strip the 4-char
`cid:` prefix to form the object identifier — but the request is issued to
`jids.first()`, not to the peer `selectOnlineJid` resolved: with candidates
`[peer1, peer2]` where only `peer2` is reachable, the resolved peer is
`peer2` while the request targets `peer1`. -/
theorem bob_request_target_mismatch :
    bobStart "me@server/res" (fun _ => false) ["peer1@server/res"]
        "cid:sha1+abc@bob.xmpp.org"
      = .bobImmediateFail bobOfflineError ∧
    selectOnlineJid "me@server/res" (fun j => j == "peer2@server/res")
        ["peer1@server/res", "peer2@server/res"] = some "peer2@server/res" ∧
    bobStart "me@server/res" (fun j => j == "peer2@server/res")
        ["peer1@server/res", "peer2@server/res"] "cid:sha1+abc@bob.xmpp.org"
      = .bobRequest "peer1@server/res" "sha1+abc@bob.xmpp.org" ∧
    "peer1@server/res" ≠ "peer2@server/res" := by
  decide

/-- Claim C9: calling `publish` on an item whose bulk-upload-done and
peer-transfer-done flags are both already set is a no-op: the item state is
unchanged and no effect — no upload, no cache write, no `publishFinished`
notification — is produced. -/
theorem publish_idempotent (st : ItemState) (disco : Bool)
    (cacheDir cachedName : String)
    (hh : st.httpFinished = true) (hj : st.jingleFinished = true) :
    publish st disco cacheDir cachedName = (st, []) := by
  simp [publish, hh, hj]

/-- Witness for C9 at a fully published item. -/
theorem publish_idempotent_witness :
    publish publishedItem false "/cache" "x.png" = (publishedItem, []) :=
  publish_idempotent publishedItem false "/cache" "x.png" rfl rfl

/-- Claim C10: `fileName` answers the empty string whenever the terminal
success flag is unset, answers the chosen destination path exactly when it is
set, and along any run in which no pull ever observes the adapter
disconnected-and-drained with a successful staging write, the flag — and
hence the non-empty answer — never appears. -/
theorem fileName_empty_until_success :
    (∀ s : Orc, s.success = false → fileName s = "") ∧
    (∀ s : Orc, s.success = true → fileName s = s.dstFileName) ∧
    (∀ (s : Orc) (evs : List Ev), s.success = false →
      (∀ e ∈ evs, mayDeclareSuccess e = false) → fileName (run s evs).1 = "") := by
  refine ⟨?_, ?_, ?_⟩
  · intro s h
    simp [fileName, h]
  · intro s h
    simp [fileName, h]
  · intro s evs hs he
    have h := run_preserves_failure s evs hs he
    simp [fileName, h]

/-- Witness for C10: a failing then disconnecting session never yields a
non-empty file name. -/
theorem fileName_empty_until_success_witness :
    fileName (run preMetaSession [Ev.failedEv "err", Ev.discEv 0]).1 = "" :=
  fileName_empty_until_success.2.2 preMetaSession [Ev.failedEv "err", Ev.discEv 0]
    rfl (by decide)

end Psi
